import Mathlib

/-!
Verification of the IMEC contact-form backend (three JavaScript source
variants: `part_000`, `part_001`, and the two server files concatenated in
`server.js`, called `Srv` (the `/contacts/` variant) and `SrvB` (the second
`/api/contact` variant) below).

The embedding models request-body fields as JavaScript values (absent,
null, string, number, boolean), the validators as functions that may throw
a `TypeError` (calling `.trim()` / `.replace()` on a non-string), and the
POST handlers as functions from a configuration, a request body and a
transport oracle to a handler result together with the list of mails that
were passed to `sendMail` (in call order).
-/

/-- A JavaScript value as it can appear in a parsed JSON request body
field: `undefined` (absent), `null`, a string, a number, or a boolean. -/
inductive JSValue where
  | undef : JSValue
  | null : JSValue
  | str : String → JSValue
  | num : Int → JSValue
  | bool : Bool → JSValue
deriving DecidableEq, Repr

/-- JavaScript truthiness: `undefined`, `null`, `""`, `0` and `false` are
falsy, everything else modelled here is truthy. -/
def truthy : JSValue → Bool
  | .undef => false
  | .null => false
  | .str s => !s.isEmpty
  | .num n => !(n == 0)
  | .bool b => b

/-- JavaScript string coercion, as performed by template-literal
interpolation. -/
def jsToString : JSValue → String
  | .undef => "undefined"
  | .null => "null"
  | .str s => s
  | .num n => toString n
  | .bool b => if b then "true" else "false"

/-- A thrown JavaScript error (only `TypeError` is relevant here: calling a
string method on a value that is not a string). -/
inductive JsErr where
  | typeError : JsErr
deriving DecidableEq, Repr

/-- `s.trim()` on a string: drop leading and trailing whitespace. -/
def jsTrim (s : String) : String :=
  String.mk
    (((s.data.dropWhile Char.isWhitespace).reverse.dropWhile
      Char.isWhitespace).reverse)

/-- `v.trim()`: succeeds on strings, throws a `TypeError` otherwise. -/
def jsTrimE : JSValue → Except JsErr String
  | .str s => .ok (jsTrim s)
  | _ => .error .typeError

/-- `s.replace(/\n/g, "<br>")` on the character list of a string: every
newline becomes the four characters `<br>`. -/
def replaceNlList : List Char → List Char
  | [] => []
  | '\n' :: t => '<' :: 'b' :: 'r' :: '>' :: replaceNlList t
  | c :: t => c :: replaceNlList t

/-- `s.replace(/\n/g, "<br>")` on a string. -/
def replaceNl (s : String) : String := String.mk (replaceNlList s.data)

/-- `v.replace(/\n/g, "<br>")`: succeeds on strings, throws a `TypeError`
otherwise. -/
def jsReplaceNl : JSValue → Except JsErr String
  | .str s => .ok (replaceNl s)
  | _ => .error .typeError

deriving instance DecidableEq for Except

/-- A character admissible in every segment of the e-mail regular
expression `[^\s@]`: not whitespace and not `@`. -/
def noAtWs (c : Char) : Bool := !c.isWhitespace && !(c == '@')

/-- Whether a character list contains a `'.'` that is neither its first
nor its last element (so the `\.` of the e-mail pattern has a non-empty
domain part on each side). -/
def innerDot (l : List Char) : Bool := ((l.drop 1).dropLast).contains '.'

/-- Executable matcher for the source regular expression
`^[^\s@]+@[^\s@]+\.[^\s@]+$` (`emailRe` in all three variants): the input
splits at its unique `@` into a non-empty whitespace-free local part and a
remainder that is free of whitespace and `@` and contains an inner dot. -/
def emailRe (s : String) : Bool :=
  match s.toList.dropWhile (fun c => !(c == '@')) with
  | '@' :: rest =>
      !(s.toList.takeWhile (fun c => !(c == '@'))).isEmpty &&
      (s.toList.takeWhile (fun c => !(c == '@'))).all (fun c => !c.isWhitespace) &&
      rest.all noAtWs && innerDot rest
  | _ => false

/-- Executable matcher for the source regular expression
`^\+\d{1,3}[0-9]{7,}$` (`phoneRe` in all three variants): a leading `+`
followed by at least `1 + 7 = 8` digits and nothing else. -/
def phoneRe (s : String) : Bool :=
  match s.toList with
  | '+' :: rest => rest.all Char.isDigit && decide (8 ≤ rest.length)
  | _ => false

/-- Result of `validateBody`: accepted, or rejected with the failing field
and (in the `part_001`/`SrvB` variant) a human-readable reason. -/
inductive VResult where
  | accepted : VResult
  | rejected : String → Option String → VResult
deriving DecidableEq, Repr

/-- A destructured request body: the six fields read off `req.body`. -/
structure ReqBody where
  name : JSValue
  email : JSValue
  phone : JSValue
  interest : JSValue
  message : JSValue
  language : JSValue
deriving DecidableEq, Repr

/-- `validateBody` of `part_001` (textually identical in the second
`server.js` variant): name truthy with trimmed length ≥ 2, e-mail matching
`emailRe` after trimming, phone matching `phoneRe` after trimming,
interest truthy and non-blank; `message` is not examined.  Calling
`.trim()` on a truthy non-string throws. -/
def validateBody001 (b : ReqBody) : Except JsErr VResult :=
  if !truthy b.name then
    .ok (.rejected "name" (some "Name must be at least 2 characters"))
  else match jsTrimE b.name with
  | .error e => .error e
  | .ok n =>
    if n.length < 2 then
      .ok (.rejected "name" (some "Name must be at least 2 characters"))
    else if !truthy b.email then
      .ok (.rejected "email" (some "Invalid email format"))
    else match jsTrimE b.email with
    | .error e => .error e
    | .ok em =>
      if !emailRe em then
        .ok (.rejected "email" (some "Invalid email format"))
      else if !truthy b.phone then
        .ok (.rejected "phone"
          (some "Phone must be in international format (e.g., +1234567890)"))
      else match jsTrimE b.phone with
      | .error e => .error e
      | .ok ph =>
        if !phoneRe ph then
          .ok (.rejected "phone"
            (some "Phone must be in international format (e.g., +1234567890)"))
        else if !truthy b.interest then
          .ok (.rejected "interest" (some "Interest is required"))
        else match jsTrimE b.interest with
        | .error e => .error e
        | .ok it =>
          if it == "" then
            .ok (.rejected "interest" (some "Interest is required"))
          else .ok .accepted

/-- `validateBody` of `part_000`: same checks with minimum name length 3,
no reason strings, and a final check that `message` is truthy and
non-blank. -/
def validateBody000 (b : ReqBody) : Except JsErr VResult :=
  if !truthy b.name then .ok (.rejected "name" none)
  else match jsTrimE b.name with
  | .error e => .error e
  | .ok n =>
    if n.length < 3 then .ok (.rejected "name" none)
    else if !truthy b.email then .ok (.rejected "email" none)
    else match jsTrimE b.email with
    | .error e => .error e
    | .ok em =>
      if !emailRe em then .ok (.rejected "email" none)
      else if !truthy b.phone then .ok (.rejected "phone" none)
      else match jsTrimE b.phone with
      | .error e => .error e
      | .ok ph =>
        if !phoneRe ph then .ok (.rejected "phone" none)
        else if !truthy b.interest then .ok (.rejected "interest" none)
        else match jsTrimE b.interest with
        | .error e => .error e
        | .ok it =>
          if it == "" then .ok (.rejected "interest" none)
          else if !truthy b.message then .ok (.rejected "message" none)
          else match jsTrimE b.message with
          | .error e => .error e
          | .ok ms =>
            if ms == "" then .ok (.rejected "message" none)
            else .ok .accepted

/-- `validateBody` of the `/contacts/` variant of `server.js`: identical
to `part_000` except that `message` is not examined (the function
destructures only `name, email, phone, interest`). -/
def validateBodySrv (b : ReqBody) : Except JsErr VResult :=
  if !truthy b.name then .ok (.rejected "name" none)
  else match jsTrimE b.name with
  | .error e => .error e
  | .ok n =>
    if n.length < 3 then .ok (.rejected "name" none)
    else if !truthy b.email then .ok (.rejected "email" none)
    else match jsTrimE b.email with
    | .error e => .error e
    | .ok em =>
      if !emailRe em then .ok (.rejected "email" none)
      else if !truthy b.phone then .ok (.rejected "phone" none)
      else match jsTrimE b.phone with
      | .error e => .error e
      | .ok ph =>
        if !phoneRe ph then .ok (.rejected "phone" none)
        else if !truthy b.interest then .ok (.rejected "interest" none)
        else match jsTrimE b.interest with
        | .error e => .error e
        | .ok it =>
          if it == "" then .ok (.rejected "interest" none)
          else .ok .accepted

/-- `validateBody` of the second `/api/contact` variant of `server.js`,
textually identical to the one in `part_001`. -/
def validateBodySrvB : ReqBody → Except JsErr VResult := validateBody001

/-- An environment / configuration record: the three address-related
variables read by the handlers (`process.env.*`); `none` models an unset
variable. -/
structure Config where
  SMTP_FROM : Option String
  SMTP_USER : Option String
  TO_EMAIL : Option String
deriving DecidableEq, Repr

/-- JavaScript `a || b` on environment values: `a` when truthy (set and
non-empty), otherwise `b` verbatim. -/
def jsOr (a b : Option String) : Option String :=
  match a with
  | some s => if s.isEmpty then b else some s
  | none => b

/-- JavaScript string coercion of an environment value, as performed by
template-literal interpolation (`undefined` prints as `"undefined"`). -/
def jsStr (v : Option String) : String :=
  match v with
  | some s => s
  | none => "undefined"

/-- An outbound message as handed to `transporter.sendMail`. -/
structure Mail where
  fromAddr : Option String
  toAddr : Option String
  subject : String
  html : String
  text : Option String
deriving DecidableEq, Repr

/-- `part_001` / `SrvB` notification sender:
`SMTP_FROM || SMTP_USER || "no-reply@imec-school.com"`. -/
def fromChain001 (cfg : Config) : Option String :=
  jsOr cfg.SMTP_FROM (jsOr cfg.SMTP_USER (some "no-reply@imec-school.com"))

/-- `part_001` / `SrvB` notification recipient:
`TO_EMAIL || SMTP_USER || "imec@imec-school.com"`. -/
def toChain001 (cfg : Config) : Option String :=
  jsOr cfg.TO_EMAIL (jsOr cfg.SMTP_USER (some "imec@imec-school.com"))

/-- `part_000` notification sender:
`SMTP_FROM || (SMTP_USER || "no-reply@example.com")`. -/
def fromChain000 (cfg : Config) : Option String :=
  jsOr cfg.SMTP_FROM (jsOr cfg.SMTP_USER (some "no-reply@example.com"))

/-- `part_000` notification recipient:
`TO_EMAIL || SMTP_USER || "test@ethereal.email"`. -/
def toChain000 (cfg : Config) : Option String :=
  jsOr cfg.TO_EMAIL (jsOr cfg.SMTP_USER (some "test@ethereal.email"))

/-- `/contacts/` variant notification sender: `SMTP_FROM || SMTP_USER`
(no literal fallback). -/
def fromChainSrv (cfg : Config) : Option String :=
  jsOr cfg.SMTP_FROM cfg.SMTP_USER

/-- `/contacts/` variant notification recipient: `TO_EMAIL || SMTP_USER`
(no literal fallback). -/
def toChainSrv (cfg : Config) : Option String :=
  jsOr cfg.TO_EMAIL cfg.SMTP_USER

/-- The four language-dependent pieces produced by the `switch (language)`
statement of `part_001`. -/
structure LangContent where
  subject : String
  greeting : String
  bodyHtml : String
  closing : String
deriving DecidableEq, Repr

/-- Azerbaijani auto-reply subject (`case "az"`). -/
def azSubject : String := "IMEC ilə əlaqə saxladığınız üçün təşəkkürlər!"

/-- Azerbaijani greeting line, embedding the submitter name. -/
def azGreeting (name : String) : String :=
  "Hörmətli <b style=\"color: #2b5dff;\">" ++ name ++ "</b>,"

/-- The fixed Azerbaijani informational block (trial lesson, pricing,
duration, contact channel) — a constant, independent of the submission. -/
def azInfo : String :=
  "<div style=\"background: white; padding: 20px; border-radius: 5px; border-left: 4px solid #1D2943; margin: 15px 0;\">\n" ++
  "<p><strong style=\"color: #1D2943;\">Sınaq dərsi:</strong> Sınaq dərsinizi təyin etmək üçün bizimlə əlaqə saxlayın.</p>\n" ++
  "<p><strong style=\"color: #1D2943;\">Fərdi dərslər:</strong> 8 dərs — 250 AZN</p>\n" ++
  "<p><strong style=\"color: #1D2943;\">Qrup dərsləri:</strong> 8 dərs — 200 AZN</p>\n" ++
  "<p><strong style=\"color: #1D2943;\">Dərsin müddəti:</strong> Hər dərs 50 dəqiqə</p>\n" ++
  "<p><strong style=\"color: #1D2943;\">Əlaqə:</strong> <a href=\"tel:+994103192021\" style=\"color: #1D2943;\">+994103192021</a> (Zəng və ya WhatsApp)</p>\n" ++
  "</div>"

/-- Azerbaijani body introduction, embedding the selected interest. -/
def azIntro (interest : String) : String :=
  "<p>Bizim <b style=\"color: #2b5dff;\">" ++ interest ++
  "</b> dərsimizə maraq göstərdiyiniz üçün təşəkkür edirik.</p>\n" ++
  "<p>Aşağıda bu dərs haqqında daha ətraflı məlumat verilmişdir:</p>\n"

/-- Azerbaijani closing block (constant). -/
def azClosing : String :=
  "<p>Hörmətlə,<br><b style=\"color: #1D2943;\">IMEC komandası</b><br>\n" ++
  "<a href=\"https://imec-school.com\" style=\"color: #1D2943;\">imec-school.com</a></p>"

/-- Russian auto-reply subject (`case "ru"`). -/
def ruSubject : String := "Спасибо за обращение в IMEC!"

/-- Russian greeting line, embedding the submitter name. -/
def ruGreeting (name : String) : String :=
  "Уважаемый(ая) <b style=\"color: #2b5dff;\">" ++ name ++ "</b>,"

/-- The fixed Russian informational block — a constant, independent of the
submission. -/
def ruInfo : String :=
  "<div style=\"background: white; padding: 20px; border-radius: 5px; border-left: 4px solid #1D2943; margin: 15px 0;\">\n" ++
  "<p><strong style=\"color: #1D2943;\">Пробное занятие:</strong> Свяжитесь с нами, чтобы записаться на пробный урок.</p>\n" ++
  "<p><strong style=\"color: #1D2943;\">Индивидуальные занятия:</strong> 8 уроков — 250 AZN</p>\n" ++
  "<p><strong style=\"color: #1D2943;\">Групповые занятия:</strong> 8 уроков — 200 AZN</p>\n" ++
  "<p><strong style=\"color: #1D2943;\">Длительность занятия:</strong> 50 минут</p>\n" ++
  "<p><strong style=\"color: #1D2943;\">Контакты:</strong> <a href=\"tel:+994103192021\" style=\"color: #1D2943;\">+994103192021</a> (Звонок или WhatsApp)</p>\n" ++
  "</div>"

/-- Russian body introduction, embedding the selected interest. -/
def ruIntro (interest : String) : String :=
  "<p>Спасибо за ваш интерес к нашему курсу <b style=\"color: #2b5dff;\">" ++
  interest ++ "</b>.</p>\n<p>Вот подробная информация о занятиях:</p>\n"

/-- Russian closing block (constant). -/
def ruClosing : String :=
  "<p>С уважением,<br><b style=\"color: #1D2943;\">Команда IMEC</b><br>\n" ++
  "<a href=\"https://imec-school.com\" style=\"color: #1D2943;\">imec-school.com</a></p>"

/-- English (default) auto-reply subject. -/
def enSubject : String := "Thank you for contacting IMEC!"

/-- English greeting line, embedding the submitter name. -/
def enGreeting (name : String) : String :=
  "Dear <b style=\"color: #2b5dff;\">" ++ name ++ "</b>,"

/-- The fixed English informational block — a constant, independent of the
submission. -/
def enInfo : String :=
  "<div style=\"background: white; padding: 20px; border-radius: 5px; border-left: 4px solid #1D2943; margin: 15px 0;\">\n" ++
  "<p><strong style=\"color: #1D2943;\">Trial Lesson:</strong> Contact us to schedule your trial lesson.</p>\n" ++
  "<p><strong style=\"color: #1D2943;\">Individual Lessons:</strong> 8 lessons — 250 AZN</p>\n" ++
  "<p><strong style=\"color: #1D2943;\">Group Lessons:</strong> 8 lessons — 200 AZN</p>\n" ++
  "<p><strong style=\"color: #1D2943;\">Lesson Duration:</strong> 50 minutes per lesson</p>\n" ++
  "<p><strong style=\"color: #1D2943;\">Contact Us:</strong> <a href=\"tel:+994103192021\" style=\"color: #1D2943;\">+994103192021</a> (Call or WhatsApp)</p>\n" ++
  "</div>"

/-- English body introduction, embedding the selected interest. -/
def enIntro (interest : String) : String :=
  "<p>Thank you for your interest in our <b style=\"color: #2b5dff;\">" ++
  interest ++ "</b> program.</p>\n<p>Here is some more detailed information:</p>\n"

/-- English closing block (constant). -/
def enClosing : String :=
  "<p>Best regards,<br><b style=\"color: #1D2943;\">IMEC Team</b><br>\n" ++
  "<a href=\"https://imec-school.com\" style=\"color: #1D2943;\">imec-school.com</a></p>"

/-- The body introduction selected for a language value (exact match,
JavaScript `switch` with strict equality). -/
def introOf (language : JSValue) (interest : String) : String :=
  if language == .str "az" then azIntro interest
  else if language == .str "ru" then ruIntro interest
  else enIntro interest

/-- The fixed informational block selected for a language value: a
function of the language alone. -/
def infoOf (language : JSValue) : String :=
  if language == .str "az" then azInfo
  else if language == .str "ru" then ruInfo
  else enInfo

/-- The `switch (language)` statement of `part_001`: selects subject,
greeting, body and closing by exact match on `language`, defaulting to
English. -/
def autoSwitch (language : JSValue) (name interest : String) : LangContent :=
  if language == .str "az" then
    ⟨azSubject, azGreeting name, azIntro interest ++ azInfo, azClosing⟩
  else if language == .str "ru" then
    ⟨ruSubject, ruGreeting name, ruIntro interest ++ ruInfo, ruClosing⟩
  else
    ⟨enSubject, enGreeting name, enIntro interest ++ enInfo, enClosing⟩

/-- Result of a POST handler, as seen by the HTTP client: success (200),
bad request (400 with `error:"validation_failed"`, the failing field, and
— where the variant produces one — the reason), or the generic 500. -/
inductive HandlerResult where
  | success : HandlerResult
  | badRequest : String → Option String → HandlerResult
  | serverError : HandlerResult
deriving DecidableEq, Repr

/-- The notification HTML body of `part_001` / `SrvB` (identical text in
both), with `message.replace(/\n/g, "<br>")` already rendered into
`msgHtml`. -/
def notifHtml001 (name email phone interest msgHtml : String) : String :=
  "<div style=\"font-family: Arial, sans-serif; max-width: 600px; margin: 0 auto;\">\n" ++
  "<h2 style=\"color: #333; border-bottom: 2px solid #007cba; padding-bottom: 10px;\">\nNew Contact Form Submission\n</h2>\n" ++
  "<div style=\"background: #f9f9f9; padding: 20px; border-radius: 5px;\">\n" ++
  "<p><strong>Name:</strong> " ++ name ++ "</p>\n" ++
  "<p><strong>Email:</strong> " ++ email ++ "</p>\n" ++
  "<p><strong>Phone:</strong> " ++ phone ++ "</p>\n" ++
  "<p><strong>Interest:</strong> " ++ interest ++ "</p>\n" ++
  "<p><strong>Message:</strong></p>\n" ++
  "<div style=\"background: white; padding: 15px; border-radius: 3px; border-left: 4px solid #007cba;\">\n" ++
  msgHtml ++ "\n</div>\n</div>\n" ++
  "<p style=\"color: #666; font-size: 12px; margin-top: 20px;\">\nThis message was sent from the IMEC School website contact form.\n</p>\n</div>"

/-- The plain-text notification body of `part_001`. -/
def notifText001 (name email phone interest message : String) : String :=
  "\nNew Contact Form Submission\n\nName: " ++ name ++ "\nEmail: " ++ email ++
  "\nPhone: " ++ phone ++ "\nInterest: " ++ interest ++ "\nMessage: " ++
  message ++ "\n\n---\nSent from IMEC School website\n"

/-- The auto-reply HTML body of `part_001`: branded header restating the
subject, then greeting, body and closing, then the fixed footer with the
current year. -/
def autoHtml001 (content : LangContent) (year : Nat) : String :=
  "<div style=\"font-family: Arial, sans-serif; line-height: 1.6; max-width: 600px; margin: 0 auto;\">\n" ++
  "<div style=\"background: #1D2943; padding: 30px; text-align: center; color: white;\">\n" ++
  "<h1 style=\"margin: 0; font-size: 28px;\">IMEC</h1>\n" ++
  "<p style=\"margin: 10px 0 0; font-size: 16px; opacity: 0.9;\">" ++ content.subject ++ "</p>\n</div>\n" ++
  "<div style=\"padding: 30px; background: #f9f9f9; color: #000000;\">\n" ++
  content.greeting ++ "\n" ++ content.bodyHtml ++ "\n" ++ content.closing ++ "\n</div>\n" ++
  "<div style=\"background: #1D2943; color: white; padding: 20px; text-align: center; font-size: 12px;\">\n" ++
  "<p>This is an automated response. Please do not reply.</p>\n" ++
  "<p>&copy; " ++ toString year ++ " IMEC School. All rights reserved.</p>\n</div>\n</div>"

/-- The notification mail of `part_001` for an accepted body whose
rendered message HTML is `msgHtml`. -/
def notifMail001 (cfg : Config) (b : ReqBody) (msgHtml : String) : Mail :=
  { fromAddr := fromChain001 cfg
    toAddr := toChain001 cfg
    subject := "New Contact from IMEC Website - " ++ jsToString b.name
    html := notifHtml001 (jsToString b.name) (jsToString b.email)
      (jsToString b.phone) (jsToString b.interest) msgHtml
    text := some (notifText001 (jsToString b.name) (jsToString b.email)
      (jsToString b.phone) (jsToString b.interest) (jsToString b.message)) }

/-- The auto-reply mail of `part_001`: sent to the submitter address with
the language-selected subject and body. -/
def autoMail001 (cfg : Config) (b : ReqBody) (content : LangContent)
    (year : Nat) : Mail :=
  { fromAddr := some ("\"IMEC\" <" ++
      jsStr (jsOr cfg.SMTP_FROM
        (jsOr cfg.SMTP_USER (some "no-reply@imec-school.com"))) ++ ">")
    toAddr := some (jsToString b.email)
    subject := content.subject
    html := autoHtml001 content year
    text := none }

/-- The `POST /api/contact` handler of `part_001`.  `sendOk k` tells
whether the `k`-th `sendMail` call of this request succeeds; the second
component of the result lists the mails passed to `sendMail`, in order.
Control flow of the source: validate (a thrown `TypeError` is caught and
mapped to 500); on rejection return 400 with field and reason; otherwise
run the language switch, render the notification HTML (this is where
`message.replace` can throw), send the notification, then build and send
the auto-reply; any transport failure is caught and mapped to 500. -/
def handle001 (cfg : Config) (b : ReqBody) (sendOk : Nat → Bool)
    (year : Nat) : HandlerResult × List Mail :=
  match validateBody001 b with
  | .error _ => (.serverError, [])
  | .ok (.rejected f m) => (.badRequest f m, [])
  | .ok .accepted =>
    let content := autoSwitch b.language (jsToString b.name)
      (jsToString b.interest)
    match jsReplaceNl b.message with
    | .error _ => (.serverError, [])
    | .ok msgHtml =>
      let notif := notifMail001 cfg b msgHtml
      if sendOk 0 then
        let auto := autoMail001 cfg b content year
        if sendOk 1 then (.success, [notif, auto])
        else (.serverError, [notif, auto])
      else (.serverError, [notif])

/-- The notification HTML body of `part_000` (plain interpolation of all
fields; no `.replace`, so it cannot throw). -/
def notifHtml000 (name email phone interest message : String) : String :=
  "\n<h3>New contact form submission</h3>\n" ++
  "<p><b>Name:</b> " ++ name ++ "</p>\n" ++
  "<p><b>Email:</b> " ++ email ++ "</p>\n" ++
  "<p><b>Phone:</b> " ++ phone ++ "</p>\n" ++
  "<p><b>Interest:</b> " ++ interest ++ "</p>\n" ++
  "<p><b>Message:</b> " ++ message ++ "</p>\n"

/-- The notification mail of `part_000`. -/
def notifMail000 (cfg : Config) (b : ReqBody) : Mail :=
  { fromAddr := fromChain000 cfg
    toAddr := toChain000 cfg
    subject := "New contact from website — " ++ jsToString b.name
    html := notifHtml000 (jsToString b.name) (jsToString b.email)
      (jsToString b.phone) (jsToString b.interest) (jsToString b.message)
    text := none }

/-- The `POST /api/contact` handler of `part_000`: validate, return 400
with the field only (its response carries no reason), otherwise send the
single notification mail; no auto-reply exists in this variant. -/
def handle000 (cfg : Config) (b : ReqBody) (sendOk : Nat → Bool) :
    HandlerResult × List Mail :=
  match validateBody000 b with
  | .error _ => (.serverError, [])
  | .ok (.rejected f _) => (.badRequest f none, [])
  | .ok .accepted =>
    let notif := notifMail000 cfg b
    if sendOk 0 then (.success, [notif]) else (.serverError, [notif])

/-- The message line of the `/contacts/` notification HTML:
`${message || 'No message provided'}` — a falsy message is replaced by the
placeholder at render time. -/
def msgPartSrv (message : JSValue) : String :=
  if truthy message then jsToString message else "No message provided"

/-- The notification HTML body of the `/contacts/` variant of
`server.js`. -/
def notifHtmlSrv (name email phone interest : String) (message : JSValue) :
    String :=
  "\n<h3>New contact form submission from IMEC School</h3>\n" ++
  "<p><strong>Name:</strong> " ++ name ++ "</p>\n" ++
  "<p><strong>Email:</strong> " ++ email ++ "</p>\n" ++
  "<p><strong>Phone:</strong> " ++ phone ++ "</p>\n" ++
  "<p><strong>Interest:</strong> " ++ interest ++ "</p>\n" ++
  "<p><strong>Message:</strong> " ++ msgPartSrv message ++ "</p>\n"

/-- The notification mail of the `/contacts/` variant. -/
def notifMailSrv (cfg : Config) (b : ReqBody) : Mail :=
  { fromAddr := fromChainSrv cfg
    toAddr := toChainSrv cfg
    subject := "New Contact Form - " ++ jsToString b.name
    html := notifHtmlSrv (jsToString b.name) (jsToString b.email)
      (jsToString b.phone) (jsToString b.interest) b.message
    text := none }

/-- The `POST /contacts/` handler of `server.js`: validate (message is
neither validated nor able to make rendering throw — the placeholder
interpolation is total), then send the single notification mail. -/
def handleSrv (cfg : Config) (b : ReqBody) (sendOk : Nat → Bool) :
    HandlerResult × List Mail :=
  match validateBodySrv b with
  | .error _ => (.serverError, [])
  | .ok (.rejected f _) => (.badRequest f none, [])
  | .ok .accepted =>
    let notif := notifMailSrv cfg b
    if sendOk 0 then (.success, [notif]) else (.serverError, [notif])

/-- The plain-text notification body of the second `/api/contact` variant
of `server.js` (message on its own line). -/
def notifTextSrvB (name email phone interest message : String) : String :=
  "\nNew Contact Form Submission\n\nName: " ++ name ++ "\nEmail: " ++ email ++
  "\nPhone: " ++ phone ++ "\nInterest: " ++ interest ++ "\n\nMessage:\n" ++
  message ++ "\n\n---\nSent from IMEC School website\n"

/-- The English-only auto-reply HTML body of the `SrvB` variant: greeting,
interest restatement, and a summary of the whole submission including the
rendered message (`message.replace` again). -/
def autoHtmlSrvB (name email phone interest msgHtml : String) (year : Nat) :
    String :=
  "<div style=\"font-family: Arial, sans-serif; line-height: 1.6; max-width: 600px; margin: 0 auto;\">\n" ++
  "<div style=\"background: linear-gradient(135deg, #007cba, #2b5dff); padding: 30px; text-align: center; color: white;\">\n" ++
  "<h1 style=\"margin: 0; font-size: 28px;\">Thank You!</h1>\n" ++
  "<p style=\"margin: 10px 0 0; font-size: 16px; opacity: 0.9;\">We have received your message</p>\n</div>\n" ++
  "<div style=\"padding: 30px; background: #f9f9f9;\">\n" ++
  "<p>Dear <b style=\"color: #2b5dff;\">" ++ name ++ "</b>,</p>\n" ++
  "<p>Thank you for reaching out and for your interest in our <b style=\"color: #2b5dff;\">" ++ interest ++ "</b> program.</p>\n" ++
  "<p>We have received your message and our team will review it carefully. We\x27ll get back to you as soon as possible, usually within 24-48 hours.</p>\n<br>\n" ++
  "<p>Here\x27s a summary of your inquiry:</p>\n" ++
  "<div style=\"background: white; padding: 20px; border-radius: 5px; border-left: 4px solid #2b5dff; margin: 15px 0;\">\n" ++
  "<p><strong>Name:</strong> " ++ name ++ "</p>\n" ++
  "<p><strong>Email:</strong> " ++ email ++ "</p>\n" ++
  "<p><strong>Phone:</strong> " ++ phone ++ "</p>\n" ++
  "<p><strong>Interest:</strong> " ++ interest ++ "</p>\n" ++
  "<p><strong>Your Message:</strong></p>\n" ++
  "<div style=\"background: #f8f9fa; padding: 15px; border-radius: 3px; margin-top: 10px;\">\n" ++
  msgHtml ++ "\n</div>\n</div>\n" ++
  "<p>If you have any urgent questions, feel free to reply to this email.</p>\n<br>\n" ++
  "<p>Best regards,</p>\n<p><b style=\"color: #2b5dff;\">IMEC Team</b><br>\n" ++
  "<a href=\"https://imec-school.com\" style=\"color: #2b5dff; text-decoration: none;\">imec-school.com</a></p>\n</div>\n" ++
  "<div style=\"background: #333; color: white; padding: 20px; text-align: center; font-size: 12px;\">\n" ++
  "<p>This is an automated response. Please do not reply to this email.</p>\n" ++
  "<p>&copy; " ++ toString year ++ " IMEC School. All rights reserved.</p>\n</div>\n</div>"

/-- The notification mail of the `SrvB` variant (same addresses, subject
and HTML as `part_001`; only the text body differs). -/
def notifMailSrvB (cfg : Config) (b : ReqBody) (msgHtml : String) : Mail :=
  { fromAddr := fromChain001 cfg
    toAddr := toChain001 cfg
    subject := "New Contact from IMEC Website - " ++ jsToString b.name
    html := notifHtml001 (jsToString b.name) (jsToString b.email)
      (jsToString b.phone) (jsToString b.interest) msgHtml
    text := some (notifTextSrvB (jsToString b.name) (jsToString b.email)
      (jsToString b.phone) (jsToString b.interest) (jsToString b.message)) }

/-- The auto-reply mail of the `SrvB` variant: fixed English subject. -/
def autoMailSrvB (cfg : Config) (b : ReqBody) (msgHtml : String)
    (year : Nat) : Mail :=
  { fromAddr := some ("\"IMEC\" <" ++
      jsStr (jsOr cfg.SMTP_FROM
        (jsOr cfg.SMTP_USER (some "no-reply@imec-school.com"))) ++ ">")
    toAddr := some (jsToString b.email)
    subject := "Thank you for contacting IMEC!"
    html := autoHtmlSrvB (jsToString b.name) (jsToString b.email)
      (jsToString b.phone) (jsToString b.interest) msgHtml year
    text := none }

/-- The second `POST /api/contact` handler of `server.js` (`SrvB`): like
`part_001` but with the fixed English auto-reply; `message.replace` occurs
in the notification HTML (before any send) and again in the auto-reply
HTML (on the same string value, so it cannot fail anew). -/
def handleSrvB (cfg : Config) (b : ReqBody) (sendOk : Nat → Bool)
    (year : Nat) : HandlerResult × List Mail :=
  match validateBodySrvB b with
  | .error _ => (.serverError, [])
  | .ok (.rejected f m) => (.badRequest f m, [])
  | .ok .accepted =>
    match jsReplaceNl b.message with
    | .error _ => (.serverError, [])
    | .ok msgHtml =>
      let notif := notifMailSrvB cfg b msgHtml
      if sendOk 0 then
        let auto := autoMailSrvB cfg b msgHtml year
        if sendOk 1 then (.success, [notif, auto])
        else (.serverError, [notif, auto])
      else (.serverError, [notif])

/-- The `required_fields` documentation object served by
`GET /api/contact` in `part_001` and `SrvB`. -/
def requiredFieldsDoc : List (String × String) :=
  [("name", "string (min 2 chars)"),
   ("email", "valid email"),
   ("phone", "international format (e.g., +1234567890)"),
   ("interest", "string"),
   ("message", "string (min 10 chars)")]

/-- The name check of the validators, as an isolated pass/fail/throw
test: falsy fails, a string passes iff its trimmed length reaches
`minLen`, a truthy non-string throws. -/
def checkName (minLen : Nat) (v : JSValue) : Except JsErr Bool :=
  if !truthy v then .ok false
  else match jsTrimE v with
  | .error e => .error e
  | .ok n => .ok (decide (minLen ≤ n.length))

/-- The e-mail check: falsy fails, a string passes iff `emailRe` accepts
it after trimming, a truthy non-string throws. -/
def checkEmail (v : JSValue) : Except JsErr Bool :=
  if !truthy v then .ok false
  else match jsTrimE v with
  | .error e => .error e
  | .ok em => .ok (emailRe em)

/-- The phone check: falsy fails, a string passes iff `phoneRe` accepts
it after trimming, a truthy non-string throws. -/
def checkPhone (v : JSValue) : Except JsErr Bool :=
  if !truthy v then .ok false
  else match jsTrimE v with
  | .error e => .error e
  | .ok ph => .ok (phoneRe ph)

/-- The non-blank check used for `interest` (and for `message` in
`part_000`): falsy fails, a string passes unless it trims to the empty
string, a truthy non-string throws. -/
def checkNonBlank (v : JSValue) : Except JsErr Bool :=
  if !truthy v then .ok false
  else match jsTrimE v with
  | .error e => .error e
  | .ok it => .ok (!(it == ""))

/-- Spec-side validator: run a list of named checks in order and report
the first failing field (short-circuiting); a thrown error propagates. -/
def runChecks : List (String × Option String × Except JsErr Bool) →
    Except JsErr VResult
  | [] => .ok .accepted
  | (f, msg, c) :: rest =>
    match c with
    | .error e => .error e
    | .ok true => runChecks rest
    | .ok false => .ok (.rejected f msg)

/-- The checking order of `part_001` per the specification: name, e-mail,
phone, interest (the `message` policy of this variant is fully optional,
so no message check appears). -/
def orderedChecks001 (b : ReqBody) :
    List (String × Option String × Except JsErr Bool) :=
  [("name", some "Name must be at least 2 characters", checkName 2 b.name),
   ("email", some "Invalid email format", checkEmail b.email),
   ("phone",
    some "Phone must be in international format (e.g., +1234567890)",
    checkPhone b.phone),
   ("interest", some "Interest is required", checkNonBlank b.interest)]

/-- The checking order of `part_000` per the specification: name, e-mail,
phone, interest, message. -/
def orderedChecks000 (b : ReqBody) :
    List (String × Option String × Except JsErr Bool) :=
  [("name", none, checkName 3 b.name),
   ("email", none, checkEmail b.email),
   ("phone", none, checkPhone b.phone),
   ("interest", none, checkNonBlank b.interest),
   ("message", none, checkNonBlank b.message)]

/-- The checking order of the `/contacts/` variant: name, e-mail, phone,
interest. -/
def orderedChecksSrv (b : ReqBody) :
    List (String × Option String × Except JsErr Bool) :=
  [("name", none, checkName 3 b.name),
   ("email", none, checkEmail b.email),
   ("phone", none, checkPhone b.phone),
   ("interest", none, checkNonBlank b.interest)]

/-- A character allowed in every segment of the e-mail pattern
(`[^\s@]`): neither whitespace nor `@`. -/
def emailCharOk (c : Char) : Prop := ¬ c.isWhitespace ∧ c ≠ '@'

/-- Declarative reading of the regular expression
`^[^\s@]+@[^\s@]+\.[^\s@]+$`: the whole string decomposes as a non-empty
`[^\s@]+` local part, `@`, a non-empty `[^\s@]+` segment, `.`, and a
non-empty `[^\s@]+` segment. -/
def emailSpec (s : String) : Prop :=
  ∃ a b c : List Char,
    s.data = a ++ '@' :: (b ++ '.' :: c) ∧ a ≠ [] ∧ b ≠ [] ∧ c ≠ [] ∧
    (∀ ch ∈ a, emailCharOk ch) ∧ (∀ ch ∈ b, emailCharOk ch) ∧
    (∀ ch ∈ c, emailCharOk ch)

/-- Declarative reading of the regular expression `^\+\d{1,3}[0-9]{7,}$`:
a leading `+`, one to three country-code digits, then at least seven more
digits, and nothing else. -/
def phoneSpec (s : String) : Prop :=
  ∃ cc r : List Char,
    s.data = '+' :: (cc ++ r) ∧ 1 ≤ cc.length ∧ cc.length ≤ 3 ∧
    (∀ ch ∈ cc, ch.isDigit = true) ∧ 7 ≤ r.length ∧
    (∀ ch ∈ r, ch.isDigit = true)

/-- A field value that is absent, null, or a string (the values on which
the validators are expected not to throw). -/
def stringish : JSValue → Bool
  | .undef => true
  | .null => true
  | .str _ => true
  | _ => false

/-- A field value that is a string. -/
def isStr : JSValue → Bool
  | .str _ => true
  | _ => false

/-- `t` occurs as a substring of `s`. -/
def containsSub (s t : String) : Prop := ∃ u v, s = u ++ t ++ v

/-- An environment value that is set and non-empty (JavaScript-truthy). -/
def truthyEnv : Option String → Bool
  | some s => !s.isEmpty
  | none => false

/-- A fully populated configuration used as a concrete test
environment. -/
def cfgFull : Config :=
  ⟨some "from@imec.example", some "user@imec.example", some "admin@imec.example"⟩

/-- A configuration with every variable unset. -/
def cfgNone : Config := ⟨none, none, none⟩

/-- A configuration where only the account identity `SMTP_USER` is set. -/
def cfgUserOnly : Config := ⟨none, some "user@imec.example", none⟩

/-- The end-to-end example submission of the specification. -/
def adaBody : ReqBody :=
  ⟨.str "Ada Lovelace", .str "ada@example.com", .str "+14155550123",
   .str "Group Lessons", .str "Please call me back", .str "en"⟩

/-- A submission rejected on `name` by the `part_000` validator (the
trimmed name has length 2 < 3). -/
def shortNameBody : ReqBody :=
  ⟨.str "Al", .str "ada@example.com", .str "+14155550123",
   .str "Group Lessons", .str "hello there", .undef⟩

/-- A submission with the specification's example invalid phone
`"123456"` and all other fields valid. -/
def badPhoneBody : ReqBody :=
  ⟨.str "Ada Lovelace", .str "ada@example.com", .str "123456",
   .str "Group Lessons", .str "hello there", .undef⟩

/-- A submission whose four checked fields are valid but whose `message`
is absent. -/
def noMsgBody : ReqBody :=
  ⟨.str "Ada Lovelace", .str "ada@example.com", .str "+14155550123",
   .str "Group Lessons", .undef, .undef⟩

/-- A submission whose four checked fields are valid and whose `message`
is the empty string. -/
def emptyMsgBody : ReqBody :=
  ⟨.str "Ada Lovelace", .str "ada@example.com", .str "+14155550123",
   .str "Group Lessons", .str "", .undef⟩

/-- A submission whose four checked fields are valid and whose `message`
is shorter than 10 characters. -/
def shortMsgBody : ReqBody :=
  ⟨.str "Ada Lovelace", .str "ada@example.com", .str "+14155550123",
   .str "Group Lessons", .str "short", .undef⟩

/-- A submission whose `name` is a truthy number. -/
def numNameBody : ReqBody :=
  ⟨.num 1, .str "ada@example.com", .str "+14155550123",
   .str "Group Lessons", .str "hello there", .undef⟩

/-- A transport oracle on which every `sendMail` call succeeds. -/
def kAllOk : Nat → Bool := fun _ => true

/-- A transport oracle on which every `sendMail` call fails (in
particular the first, notification, call). -/
def kAllFail : Nat → Bool := fun _ => false

/-- If every element of `a` satisfies `p` and `x` does not, `takeWhile`
and `dropWhile` split `a ++ x :: t` exactly at `x`. -/
lemma takeWhile_all_append {p : Char → Bool} (a : List Char) (x : Char)
    (t : List Char) (ha : ∀ c ∈ a, p c = true) (hx : p x = false) :
    (a ++ x :: t).takeWhile p = a ∧ (a ++ x :: t).dropWhile p = x :: t := by
  induction a with
  | nil => simp [List.takeWhile_cons, List.dropWhile_cons, hx]
  | cons c cs ih =>
    have hc := ha c (by simp)
    have hcs : ∀ d ∈ cs, p d = true := fun d hd => ha d (by simp [hd])
    have := ih hcs
    simp [List.takeWhile_cons, List.dropWhile_cons, hc, this.1, this.2]

lemma emailRe_iff (s : String) : emailRe s = true ↔ emailSpec s := by
  constructor
  · intro h
    unfold emailRe at h
    split at h
    next rest heq =>
      simp only [Bool.and_eq_true] at h
      obtain ⟨⟨⟨h1, h2⟩, h3⟩, h4⟩ := h
      set a := s.toList.takeWhile (fun c => !(c == '@')) with hadef
      have hl : a ++ '@' :: rest = s.toList := by
        rw [← heq]; exact List.takeWhile_append_dropWhile _ _
      unfold innerDot at h4
      have hdot' : '.' ∈ (rest.drop 1).dropLast := List.elem_iff.mp h4
      clear h4
      have hrne : rest ≠ [] := by rintro rfl; simp at hdot'
      obtain ⟨r0, rest', rfl⟩ := List.exists_cons_of_ne_nil hrne
      simp only [List.drop_succ_cons, List.drop_zero] at hdot'
      rcases List.eq_nil_or_concat rest' with rfl | ⟨r1, lastc, rfl⟩
      · simp at hdot'
      · rw [List.concat_eq_append, List.dropLast_concat] at hdot'
        obtain ⟨u, v, huv⟩ := List.append_of_mem hdot'
        subst huv
        have hAll : ∀ ch ∈ r0 :: ((u ++ '.' :: v).concat lastc), noAtWs ch = true :=
          List.all_eq_true.mp h3
        refine ⟨a, r0 :: u, v ++ [lastc], ?_, ?_, by simp, by simp, ?_, ?_, ?_⟩
        · show s.toList = _
          rw [← hl]; simp
        · intro hnil
          rw [hnil] at h1; simp at h1
        · intro ch hch
          have hws : ¬ ch.isWhitespace := by
            have := List.all_eq_true.mp h2 ch hch
            simpa using this
          have hat : ch ≠ '@' := by
            have := List.mem_takeWhile_imp (hadef ▸ hch)
            simpa using this
          exact ⟨hws, hat⟩
        · intro ch hch
          have hmem : ch ∈ r0 :: ((u ++ '.' :: v).concat lastc) := by
            simp only [List.concat_eq_append, List.mem_cons, List.mem_append]
            rcases List.mem_cons.mp hch with rfl | h
            · left; rfl
            · right; left; left; exact h
          have := hAll ch hmem
          unfold noAtWs at this
          simp only [Bool.and_eq_true, Bool.not_eq_true'] at this
          exact ⟨by simp [this.1], by simpa using this.2⟩
        · intro ch hch
          have hmem : ch ∈ r0 :: ((u ++ '.' :: v).concat lastc) := by
            simp only [List.concat_eq_append, List.mem_cons, List.mem_append,
              List.mem_singleton] at hch ⊢
            rcases hch with h | h
            · right; left; right; right; exact h
            · right; right; exact h
          have := hAll ch hmem
          unfold noAtWs at this
          simp only [Bool.and_eq_true, Bool.not_eq_true'] at this
          exact ⟨by simp [this.1], by simpa using this.2⟩
    next => simp at h
  · rintro ⟨a, b, c, hl, hane, hbne, hcne, hca, hcb, hcc⟩
    have hpa : ∀ ch ∈ a, (fun c => !(c == '@')) ch = true := by
      intro ch hch; simpa using (hca ch hch).2
    have hpx : (fun c => !(c == '@')) '@' = false := by simp
    have hsplit := takeWhile_all_append a '@' (b ++ '.' :: c) hpa hpx
    have hTo : s.toList = a ++ '@' :: (b ++ '.' :: c) := hl
    have e1 : a.isEmpty = false := by
      simp [List.isEmpty_iff, hane]
    have e2 : a.all (fun ch => !ch.isWhitespace) = true :=
      List.all_eq_true.mpr fun ch hch => by simpa using (hca ch hch).1
    have e3 : (b ++ '.' :: c).all noAtWs = true := by
      refine List.all_eq_true.mpr fun ch hch => ?_
      unfold noAtWs
      simp only [Bool.and_eq_true, Bool.not_eq_true']
      rcases List.mem_append.mp hch with h | h
      · exact ⟨by simpa using (hcb ch h).1, by simpa using (hcb ch h).2⟩
      · rcases List.mem_cons.mp h with rfl | h
        · exact ⟨by decide, by decide⟩
        · exact ⟨by simpa using (hcc ch h).1, by simpa using (hcc ch h).2⟩
    have e4 : innerDot (b ++ '.' :: c) = true := by
      unfold innerDot
      cases b with
      | nil => exact absurd rfl hbne
      | cons b0 b' =>
        rcases List.eq_nil_or_concat c with rfl | ⟨c', cl, rfl⟩
        · exact absurd rfl hcne
        · have hdl : (((b0 :: b') ++ '.' :: c'.concat cl).drop 1).dropLast
              = b' ++ '.' :: c' := by
            simp only [List.cons_append, List.drop_succ_cons, List.drop_zero,
              List.concat_eq_append]
            rw [show b' ++ '.' :: (c' ++ [cl]) = (b' ++ '.' :: c') ++ [cl] by simp]
            exact List.dropLast_concat
          rw [hdl]
          exact List.elem_iff.mpr (by simp)
    unfold emailRe
    rw [hTo, hsplit.2, hsplit.1]
    simp [e1, e2, e3, e4]

/-- The executable `phoneRe` agrees with the declarative reading of
`^\+\d{1,3}[0-9]{7,}$`. -/
lemma phoneRe_iff (s : String) : phoneRe s = true ↔ phoneSpec s := by
  constructor
  · intro h
    unfold phoneRe at h
    split at h
    next rest heq =>
      simp only [Bool.and_eq_true, decide_eq_true_eq] at h
      obtain ⟨hd, hlen⟩ := h
      refine ⟨rest.take 1, rest.drop 1, ?_, ?_, ?_, ?_, ?_, ?_⟩
      · show s.toList = _
        rw [heq, List.take_append_drop]
      · simp only [List.length_take]; omega
      · simp only [List.length_take]; omega
      · intro ch hch
        exact List.all_eq_true.mp hd ch (List.mem_of_mem_take hch)
      · simp only [List.length_drop]; omega
      · intro ch hch
        exact List.all_eq_true.mp hd ch (List.mem_of_mem_drop hch)
    next => simp at h
  · rintro ⟨cc, r, hl, hcc1, hcc3, hdc, hr7, hdr⟩
    have hTo : s.toList = '+' :: (cc ++ r) := hl
    unfold phoneRe
    rw [hTo]
    simp only [Bool.and_eq_true, decide_eq_true_eq]
    constructor
    · refine List.all_eq_true.mpr fun ch hch => ?_
      rcases List.mem_append.mp hch with h | h
      exacts [hdc ch h, hdr ch h]
    · simp only [List.length_append]; omega

/-- `validateBody001` runs exactly the ordered check list of the
specification: name, e-mail, phone, interest, short-circuiting at the
first failure. -/
lemma validateBody001_eq_runChecks (b : ReqBody) :
    validateBody001 b = runChecks (orderedChecks001 b) := by
  unfold validateBody001 orderedChecks001 checkName checkEmail checkPhone checkNonBlank
  cases h1 : truthy b.name with
  | false => simp [runChecks, h1]
  | true =>
    cases h2 : jsTrimE b.name with
    | error e => simp [runChecks, h1, h2]
    | ok n =>
      by_cases h3 : n.length < 2
      · simp [runChecks, h1, h2, h3, Nat.not_le.mpr h3]
      · cases h4 : truthy b.email with
        | false => simp [runChecks, h1, h2, h3, Nat.le_of_not_lt h3, h4]
        | true =>
          cases h5 : jsTrimE b.email with
          | error e => simp [runChecks, h1, h2, h3, Nat.le_of_not_lt h3, h4, h5]
          | ok em =>
            cases h6 : emailRe em with
            | false => simp [runChecks, h1, h2, h3, Nat.le_of_not_lt h3, h4, h5, h6]
            | true =>
              cases h7 : truthy b.phone with
              | false => simp [runChecks, h1, h2, h3, Nat.le_of_not_lt h3, h4, h5, h6, h7]
              | true =>
                cases h8 : jsTrimE b.phone with
                | error e => simp [runChecks, h1, h2, h3, Nat.le_of_not_lt h3, h4, h5, h6, h7, h8]
                | ok ph =>
                  cases h9 : phoneRe ph with
                  | false => simp [runChecks, h1, h2, h3, Nat.le_of_not_lt h3, h4, h5, h6, h7, h8, h9]
                  | true =>
                    cases h10 : truthy b.interest with
                    | false => simp [runChecks, h1, h2, h3, Nat.le_of_not_lt h3, h4, h5, h6, h7, h8, h9, h10]
                    | true =>
                      cases h11 : jsTrimE b.interest with
                      | error e => simp [runChecks, h1, h2, h3, Nat.le_of_not_lt h3, h4, h5, h6, h7, h8, h9, h10, h11]
                      | ok it =>
                        cases h12 : it == "" with
                        | false => simp [runChecks, h1, h2, h3, Nat.le_of_not_lt h3, h4, h5, h6, h7, h8, h9, h10, h11, h12]
                        | true => simp [runChecks, h1, h2, h3, Nat.le_of_not_lt h3, h4, h5, h6, h7, h8, h9, h10, h11, h12]

/-- `validateBody000` runs exactly the ordered check list of the
specification: name, e-mail, phone, interest, message. -/
lemma validateBody000_eq_runChecks (b : ReqBody) :
    validateBody000 b = runChecks (orderedChecks000 b) := by
  unfold validateBody000 orderedChecks000 checkName checkEmail checkPhone checkNonBlank
  cases h1 : truthy b.name with
  | false => simp [runChecks, h1]
  | true =>
    cases h2 : jsTrimE b.name with
    | error e => simp [runChecks, h1, h2]
    | ok n =>
      by_cases h3 : n.length < 3
      · simp [runChecks, h1, h2, h3, Nat.not_le.mpr h3]
      · cases h4 : truthy b.email with
        | false => simp [runChecks, h1, h2, h3, Nat.le_of_not_lt h3, h4]
        | true =>
          cases h5 : jsTrimE b.email with
          | error e => simp [runChecks, h1, h2, h3, Nat.le_of_not_lt h3, h4, h5]
          | ok em =>
            cases h6 : emailRe em with
            | false => simp [runChecks, h1, h2, h3, Nat.le_of_not_lt h3, h4, h5, h6]
            | true =>
              cases h7 : truthy b.phone with
              | false => simp [runChecks, h1, h2, h3, Nat.le_of_not_lt h3, h4, h5, h6, h7]
              | true =>
                cases h8 : jsTrimE b.phone with
                | error e => simp [runChecks, h1, h2, h3, Nat.le_of_not_lt h3, h4, h5, h6, h7, h8]
                | ok ph =>
                  cases h9 : phoneRe ph with
                  | false => simp [runChecks, h1, h2, h3, Nat.le_of_not_lt h3, h4, h5, h6, h7, h8, h9]
                  | true =>
                    cases h10 : truthy b.interest with
                    | false => simp [runChecks, h1, h2, h3, Nat.le_of_not_lt h3, h4, h5, h6, h7, h8, h9, h10]
                    | true =>
                      cases h11 : jsTrimE b.interest with
                      | error e => simp [runChecks, h1, h2, h3, Nat.le_of_not_lt h3, h4, h5, h6, h7, h8, h9, h10, h11]
                      | ok it =>
                        cases h12 : it == "" with
                        | true => simp [runChecks, h1, h2, h3, Nat.le_of_not_lt h3, h4, h5, h6, h7, h8, h9, h10, h11, h12]
                        | false =>
                          cases h13 : truthy b.message with
                          | false => simp [runChecks, h1, h2, h3, Nat.le_of_not_lt h3, h4, h5, h6, h7, h8, h9, h10, h11, h12, h13]
                          | true =>
                            cases h14 : jsTrimE b.message with
                            | error e => simp [runChecks, h1, h2, h3, Nat.le_of_not_lt h3, h4, h5, h6, h7, h8, h9, h10, h11, h12, h13, h14]
                            | ok ms =>
                              cases h15 : ms == "" with
                              | false => simp [runChecks, h1, h2, h3, Nat.le_of_not_lt h3, h4, h5, h6, h7, h8, h9, h10, h11, h12, h13, h14, h15]
                              | true => simp [runChecks, h1, h2, h3, Nat.le_of_not_lt h3, h4, h5, h6, h7, h8, h9, h10, h11, h12, h13, h14, h15]

/-- `validateBodySrv` runs exactly the ordered check list of the
specification: name, e-mail, phone, interest. -/
lemma validateBodySrv_eq_runChecks (b : ReqBody) :
    validateBodySrv b = runChecks (orderedChecksSrv b) := by
  unfold validateBodySrv orderedChecksSrv checkName checkEmail checkPhone checkNonBlank
  cases h1 : truthy b.name with
  | false => simp [runChecks, h1]
  | true =>
    cases h2 : jsTrimE b.name with
    | error e => simp [runChecks, h1, h2]
    | ok n =>
      by_cases h3 : n.length < 3
      · simp [runChecks, h1, h2, h3, Nat.not_le.mpr h3]
      · cases h4 : truthy b.email with
        | false => simp [runChecks, h1, h2, h3, Nat.le_of_not_lt h3, h4]
        | true =>
          cases h5 : jsTrimE b.email with
          | error e => simp [runChecks, h1, h2, h3, Nat.le_of_not_lt h3, h4, h5]
          | ok em =>
            cases h6 : emailRe em with
            | false => simp [runChecks, h1, h2, h3, Nat.le_of_not_lt h3, h4, h5, h6]
            | true =>
              cases h7 : truthy b.phone with
              | false => simp [runChecks, h1, h2, h3, Nat.le_of_not_lt h3, h4, h5, h6, h7]
              | true =>
                cases h8 : jsTrimE b.phone with
                | error e => simp [runChecks, h1, h2, h3, Nat.le_of_not_lt h3, h4, h5, h6, h7, h8]
                | ok ph =>
                  cases h9 : phoneRe ph with
                  | false => simp [runChecks, h1, h2, h3, Nat.le_of_not_lt h3, h4, h5, h6, h7, h8, h9]
                  | true =>
                    cases h10 : truthy b.interest with
                    | false => simp [runChecks, h1, h2, h3, Nat.le_of_not_lt h3, h4, h5, h6, h7, h8, h9, h10]
                    | true =>
                      cases h11 : jsTrimE b.interest with
                      | error e => simp [runChecks, h1, h2, h3, Nat.le_of_not_lt h3, h4, h5, h6, h7, h8, h9, h10, h11]
                      | ok it =>
                        cases h12 : it == "" with
                        | false => simp [runChecks, h1, h2, h3, Nat.le_of_not_lt h3, h4, h5, h6, h7, h8, h9, h10, h11, h12]
                        | true => simp [runChecks, h1, h2, h3, Nat.le_of_not_lt h3, h4, h5, h6, h7, h8, h9, h10, h11, h12]

/-- A list of checks that all return (pass or fail, never throw) makes
`runChecks` return a result. -/
lemma runChecks_ok (l : List (String × Option String × Except JsErr Bool))
    (h : ∀ x ∈ l, ∃ bl, x.2.2 = .ok bl) : ∃ r, runChecks l = .ok r := by
  induction l with
  | nil => exact ⟨.accepted, rfl⟩
  | cons x xs ih =>
    obtain ⟨f, msg, c⟩ := x
    obtain ⟨bl, hbl'⟩ := h (f, msg, c) (by simp)
    have hbl : c = .ok bl := hbl'
    cases bl with
    | false => exact ⟨.rejected f msg, by simp [runChecks, hbl]⟩
    | true =>
      obtain ⟨r, hr⟩ := ih (fun y hy => h y (by simp [hy]))
      exact ⟨r, by simp [runChecks, hbl, hr]⟩

/-- The name check never throws on an absent, null or string value. -/
lemma checkName_ok_of_stringish (m : Nat) (v : JSValue)
    (h : stringish v = true) : ∃ bl, checkName m v = .ok bl := by
  cases v with
  | str s =>
    by_cases hs : s.isEmpty
    · exact ⟨false, by simp [checkName, truthy, hs]⟩
    · exact ⟨decide (m ≤ (jsTrim s).length),
        by simp [checkName, truthy, jsTrimE, hs]⟩
  | undef => exact ⟨false, rfl⟩
  | null => exact ⟨false, rfl⟩
  | num n => simp [stringish] at h
  | bool b => simp [stringish] at h

/-- The e-mail check never throws on an absent, null or string value. -/
lemma checkEmail_ok_of_stringish (v : JSValue)
    (h : stringish v = true) : ∃ bl, checkEmail v = .ok bl := by
  cases v with
  | str s =>
    by_cases hs : s.isEmpty
    · exact ⟨false, by simp [checkEmail, truthy, hs]⟩
    · exact ⟨emailRe (jsTrim s), by simp [checkEmail, truthy, jsTrimE, hs]⟩
  | undef => exact ⟨false, rfl⟩
  | null => exact ⟨false, rfl⟩
  | num n => simp [stringish] at h
  | bool b => simp [stringish] at h

/-- The phone check never throws on an absent, null or string value. -/
lemma checkPhone_ok_of_stringish (v : JSValue)
    (h : stringish v = true) : ∃ bl, checkPhone v = .ok bl := by
  cases v with
  | str s =>
    by_cases hs : s.isEmpty
    · exact ⟨false, by simp [checkPhone, truthy, hs]⟩
    · exact ⟨phoneRe (jsTrim s), by simp [checkPhone, truthy, jsTrimE, hs]⟩
  | undef => exact ⟨false, rfl⟩
  | null => exact ⟨false, rfl⟩
  | num n => simp [stringish] at h
  | bool b => simp [stringish] at h

/-- The non-blank check never throws on an absent, null or string
value. -/
lemma checkNonBlank_ok_of_stringish (v : JSValue)
    (h : stringish v = true) : ∃ bl, checkNonBlank v = .ok bl := by
  cases v with
  | str s =>
    by_cases hs : s.isEmpty
    · exact ⟨false, by simp [checkNonBlank, truthy, hs]⟩
    · exact ⟨!(jsTrim s == ""), by simp [checkNonBlank, truthy, jsTrimE, hs]⟩
  | undef => exact ⟨false, rfl⟩
  | null => exact ⟨false, rfl⟩
  | num n => simp [stringish] at h
  | bool b => simp [stringish] at h

/-- On a string value, the e-mail check passes exactly when the trimmed
string matches `emailRe`. -/
lemma checkEmail_str (e : String) :
    checkEmail (.str e) = .ok (emailRe (jsTrim e)) := by
  by_cases hs : e.isEmpty
  · have he : e = "" := (String.isEmpty_iff _).mp hs
    subst he
    decide
  · simp [checkEmail, truthy, jsTrimE, hs]

/-- On a string value, the phone check passes exactly when the trimmed
string matches `phoneRe`. -/
lemma checkPhone_str (p : String) :
    checkPhone (.str p) = .ok (phoneRe (jsTrim p)) := by
  by_cases hs : p.isEmpty
  · have hp : p = "" := (String.isEmpty_iff _).mp hs
    subst hp
    decide
  · simp [checkPhone, truthy, jsTrimE, hs]

/-- `a || b` returns `a` when `a` is a truthy environment value. -/
lemma jsOr_truthy (a b : Option String) (ha : truthyEnv a = true) :
    jsOr a b = a := by
  rcases a with _ | s
  · simp [truthyEnv] at ha
  · simp only [truthyEnv] at ha
    rw [Bool.not_eq_true'] at ha
    simp [jsOr, ha]

/-- `a || b` returns `b` when `a` is a falsy environment value. -/
lemma jsOr_falsy (a b : Option String) (ha : truthyEnv a = false) :
    jsOr a b = b := by
  rcases a with _ | s
  · simp [jsOr]
  · simp only [truthyEnv] at ha
    cases hse : s.isEmpty with
    | true => simp [jsOr, hse]
    | false => rw [hse] at ha; simp at ha

/-- `a || b` is truthy whenever `b` is. -/
lemma truthyEnv_jsOr (a b : Option String) (hb : truthyEnv b = true) :
    truthyEnv (jsOr a b) = true := by
  rcases a with _ | s
  · simpa [jsOr] using hb
  · cases hs : s.isEmpty with
    | true => simpa [jsOr, hs] using hb
    | false => simp [jsOr, truthyEnv, hs]

/-- C1 (amended): for every submission the validator rejects, every
handler variant returns a 400 `validation_failed` response carrying the
failing field verbatim, and the transport is never invoked (the list of
`sendMail` calls is empty); the `part_001` and `SrvB` variants also carry
the validator's human-readable reason verbatim, while the `part_000` and
`/contacts/` variants' responses carry only the field (their validators
produce no reason string). -/
theorem c1_badRequest_field_and_no_send (cfg : Config) (b : ReqBody)
    (k : Nat → Bool) (y : Nat) (f : String) (m : Option String) :
    (validateBody001 b = .ok (.rejected f m) →
      handle001 cfg b k y = (.badRequest f m, [])) ∧
    (validateBody000 b = .ok (.rejected f m) →
      handle000 cfg b k = (.badRequest f none, [])) ∧
    (validateBodySrv b = .ok (.rejected f m) →
      handleSrv cfg b k = (.badRequest f none, [])) ∧
    (validateBodySrvB b = .ok (.rejected f m) →
      handleSrvB cfg b k y = (.badRequest f m, [])) := by
  refine ⟨fun h => ?_, fun h => ?_, fun h => ?_, fun h => ?_⟩
  · simp [handle001, h]
  · simp [handle000, h]
  · simp [handleSrv, h]
  · simp [handleSrvB, h]

/-- C1 counterexample: on a concrete rejected submission, the `part_000`
handler's 400 response carries no human-readable reason at all (the reason
slot is `none`), so the claim's "carrying ... its human-readable reason
verbatim" fails for that variant. -/
theorem c1_counterexample :
    validateBody000 shortNameBody = .ok (.rejected "name" none) ∧
    handle000 cfgFull shortNameBody kAllOk = (.badRequest "name" none, []) := by
  constructor
  · decide
  · decide

/-- C1 witness: the amended theorem applied at concrete rejected inputs
for the `part_001` and `part_000` variants. -/
theorem c1_witness :
    handle001 cfgFull badPhoneBody kAllOk 2026 =
      (.badRequest "phone"
        (some "Phone must be in international format (e.g., +1234567890)"),
       []) ∧
    handle000 cfgFull shortNameBody kAllFail = (.badRequest "name" none, []) := by
  have h1 := (c1_badRequest_field_and_no_send cfgFull badPhoneBody kAllOk 2026
    "phone"
    (some "Phone must be in international format (e.g., +1234567890)")).1
  have h2 := (c1_badRequest_field_and_no_send cfgFull shortNameBody kAllFail
    2026 "name" none).2.1
  exact ⟨h1 (by decide), h2 (by decide)⟩

/-- C2: the validators are pure, total functions — identical inputs give
identical outputs — and each one equals the spec-side runner that applies
the per-field checks in the fixed order name, e-mail, phone, interest
(and, in `part_000`, message), short-circuiting at and reporting only the
first failing field even when several fields are invalid. -/
theorem c2_validator_pure_ordered :
    (∀ b b' : ReqBody, b = b' →
      validateBody001 b = validateBody001 b' ∧
      validateBody000 b = validateBody000 b' ∧
      validateBodySrv b = validateBodySrv b') ∧
    (∀ b, validateBody001 b = runChecks (orderedChecks001 b)) ∧
    (∀ b, validateBody000 b = runChecks (orderedChecks000 b)) ∧
    (∀ b, validateBodySrv b = runChecks (orderedChecksSrv b)) :=
  ⟨fun _ _ h => by subst h; exact ⟨rfl, rfl, rfl⟩,
   validateBody001_eq_runChecks, validateBody000_eq_runChecks,
   validateBodySrv_eq_runChecks⟩

/-- C2 witness: the theorem applied at the concrete example submission. -/
theorem c2_witness :
    validateBody001 adaBody = validateBody001 adaBody ∧
    validateBody001 adaBody = runChecks (orderedChecks001 adaBody) :=
  ⟨(c2_validator_pure_ordered.1 adaBody adaBody rfl).1,
   c2_validator_pure_ordered.2.1 adaBody⟩

/-- C3: if the notification send fails, the `part_001` handler returns
the generic 500 and the auto-reply is never attempted — the transport
trace contains exactly the one notification mail. -/
theorem c3_notification_failure_no_autoreply (cfg : Config) (b : ReqBody)
    (k : Nat → Bool) (y : Nat) (m : String)
    (hv : validateBody001 b = .ok .accepted) (hm : b.message = .str m)
    (hk : k 0 = false) :
    handle001 cfg b k y =
      (.serverError, [notifMail001 cfg b (replaceNl m)]) := by
  simp [handle001, hv, hm, jsReplaceNl, hk]

/-- C3 witness: the theorem applied to the concrete example submission
with a transport whose first call fails. -/
theorem c3_witness :
    handle001 cfgFull adaBody kAllFail 2026 =
      (.serverError,
       [notifMail001 cfgFull adaBody (replaceNl "Please call me back")]) :=
  c3_notification_failure_no_autoreply cfgFull adaBody kAllFail 2026
    "Please call me back" (by decide) rfl rfl

/-- C4: when both transport calls succeed, a fully valid submission makes
the `part_001` handler return success with exactly two `sendMail` calls,
a notification addressed to the configured recipient chain and an
auto-reply addressed to the submitter's own e-mail, with the
language-selected subject. -/
theorem c4_valid_submission_success (cfg : Config) (b : ReqBody)
    (k : Nat → Bool) (y : Nat) (m : String)
    (hv : validateBody001 b = .ok .accepted) (hm : b.message = .str m)
    (h0 : k 0 = true) (h1 : k 1 = true) :
    handle001 cfg b k y =
      (.success,
       [notifMail001 cfg b (replaceNl m),
        autoMail001 cfg b
          (autoSwitch b.language (jsToString b.name) (jsToString b.interest))
          y]) ∧
    (notifMail001 cfg b (replaceNl m)).toAddr = toChain001 cfg ∧
    (autoMail001 cfg b
      (autoSwitch b.language (jsToString b.name) (jsToString b.interest))
      y).toAddr = some (jsToString b.email) := by
  refine ⟨?_, rfl, rfl⟩
  simp [handle001, hv, hm, jsReplaceNl, h0, h1]

/-- C4 witness: the Ada Lovelace example — accepted, success, one
notification whose subject contains the submitter name and one auto-reply
to `ada@example.com` with the English subject. -/
theorem c4_witness :
    validateBody001 adaBody = .ok .accepted ∧
    (handle001 cfgFull adaBody kAllOk 2026).1 = .success ∧
    ((handle001 cfgFull adaBody kAllOk 2026).2.map Mail.toAddr) =
      [some "admin@imec.example", some "ada@example.com"] ∧
    ((handle001 cfgFull adaBody kAllOk 2026).2.map Mail.subject) =
      ["New Contact from IMEC Website - Ada Lovelace",
       "Thank you for contacting IMEC!"] ∧
    containsSub "New Contact from IMEC Website - Ada Lovelace"
      "Ada Lovelace" := by
  have h := c4_valid_submission_success cfgFull adaBody kAllOk 2026
    "Please call me back" (by decide) rfl rfl rfl
  refine ⟨by decide, ?_, ?_, ?_,
    ⟨"New Contact from IMEC Website - ", "", by decide⟩⟩
  · rw [h.1]
  · rw [h.1]; decide
  · rw [h.1]; decide

/-- C5: the e-mail and phone matchers agree with the declarative reading
of the source regular expressions; on string fields the validator's
e-mail and phone checks pass exactly when the trimmed value matches the
corresponding pattern; the `part_001` validator is the ordered run of
those checks; and the example phone `"123456"` fails the pattern and is
rejected naming the `phone` field. -/
theorem c5_email_phone_regexes :
    (∀ s, emailRe s = true ↔ emailSpec s) ∧
    (∀ s, phoneRe s = true ↔ phoneSpec s) ∧
    (∀ e, checkEmail (.str e) = .ok (emailRe (jsTrim e))) ∧
    (∀ p, checkPhone (.str p) = .ok (phoneRe (jsTrim p))) ∧
    (∀ b, validateBody001 b = runChecks (orderedChecks001 b)) ∧
    phoneRe (jsTrim "123456") = false ∧
    validateBody001 badPhoneBody =
      .ok (.rejected "phone"
        (some "Phone must be in international format (e.g., +1234567890)")) :=
  ⟨emailRe_iff, phoneRe_iff, checkEmail_str, checkPhone_str,
   validateBody001_eq_runChecks, by decide, by decide⟩

/-- C6: the auto-reply template is selected by exact match on the
`language` value — `"az"` gives the Azerbaijani pieces, `"ru"` the
Russian pieces, any other value (or absence) the English default — and
the fixed informational block of the selected body is a function of the
language alone, independent of the other submission fields. -/
theorem c6_language_selection :
    (∀ n i, autoSwitch (.str "az") n i =
      ⟨azSubject, azGreeting n, azIntro i ++ azInfo, azClosing⟩) ∧
    (∀ n i, autoSwitch (.str "ru") n i =
      ⟨ruSubject, ruGreeting n, ruIntro i ++ ruInfo, ruClosing⟩) ∧
    (∀ v n i, v ≠ .str "az" → v ≠ .str "ru" →
      autoSwitch v n i =
        ⟨enSubject, enGreeting n, enIntro i ++ enInfo, enClosing⟩) ∧
    (∀ v n i, (autoSwitch v n i).bodyHtml = introOf v i ++ infoOf v) := by
  refine ⟨fun n i => rfl, fun n i => rfl, ?_, ?_⟩
  · intro v n i h1 h2
    simp [autoSwitch, h1, h2]
  · intro v n i
    by_cases h1 : v = .str "az"
    · simp [autoSwitch, introOf, infoOf, h1]
    · by_cases h2 : v = .str "ru"
      · simp [autoSwitch, introOf, infoOf, h1, h2]
      · simp [autoSwitch, introOf, infoOf, h1, h2]

/-- C6 witness: the theorem's default branch applied at the concrete
value `"en"`. -/
theorem c6_witness :
    autoSwitch (.str "en") "Ada Lovelace" "Group Lessons" =
      ⟨enSubject, enGreeting "Ada Lovelace",
       enIntro "Group Lessons" ++ enInfo, enClosing⟩ :=
  c6_language_selection.2.2.1 (.str "en") "Ada Lovelace" "Group Lessons"
    (by decide) (by decide)

/-- C7: no variant implements a single consistent message policy.  The
`part_001` variant's own `GET /api/contact` documentation requires a
message of at least 10 characters, yet its validator accepts an empty
message; `part_000` accepts a 5-character message (no 10-character
minimum) while rejecting an empty one (not optional either); only the
`/contacts/` variant implements the optional-with-placeholder policy. -/
theorem c7_message_policy_bug :
    validateBody001 emptyMsgBody = .ok .accepted ∧
    ("message", "string (min 10 chars)") ∈ requiredFieldsDoc ∧
    validateBody000 shortMsgBody = .ok .accepted ∧
    validateBody000 emptyMsgBody = .ok (.rejected "message" none) ∧
    msgPartSrv .undef = "No message provided" ∧
    validateBodySrv emptyMsgBody = .ok .accepted :=
  ⟨by decide, by decide, by decide, by decide, by decide, by decide⟩

/-- C8: the notification sender is `SMTP_FROM` when that is set and
non-empty and otherwise falls back to `SMTP_USER`; the recipient is
`TO_EMAIL` with the same fallback; the `part_001` chains are non-empty
under every configuration (literal final defaults), the `/contacts/`
chains are non-empty whenever the account identity is set; and the first
`sendMail` call of the `part_001` handler carries exactly those
addresses. -/
theorem c8_address_fallbacks (cfg : Config) :
    (truthyEnv cfg.SMTP_FROM = true →
      fromChain001 cfg = cfg.SMTP_FROM ∧ fromChainSrv cfg = cfg.SMTP_FROM) ∧
    (truthyEnv cfg.SMTP_FROM = false → truthyEnv cfg.SMTP_USER = true →
      fromChain001 cfg = cfg.SMTP_USER ∧ fromChainSrv cfg = cfg.SMTP_USER) ∧
    (truthyEnv cfg.TO_EMAIL = true →
      toChain001 cfg = cfg.TO_EMAIL ∧ toChainSrv cfg = cfg.TO_EMAIL) ∧
    (truthyEnv cfg.TO_EMAIL = false → truthyEnv cfg.SMTP_USER = true →
      toChain001 cfg = cfg.SMTP_USER ∧ toChainSrv cfg = cfg.SMTP_USER) ∧
    (truthyEnv (fromChain001 cfg) = true ∧ truthyEnv (toChain001 cfg) = true) ∧
    (truthyEnv cfg.SMTP_USER = true →
      truthyEnv (fromChainSrv cfg) = true ∧ truthyEnv (toChainSrv cfg) = true) ∧
    (∀ b k y m, validateBody001 b = .ok .accepted → b.message = .str m →
      ((handle001 cfg b k y).2.map Mail.fromAddr).head? =
        some (fromChain001 cfg) ∧
      ((handle001 cfg b k y).2.map Mail.toAddr).head? =
        some (toChain001 cfg)) := by
  refine ⟨?_, ?_, ?_, ?_, ?_, ?_, ?_⟩
  · intro h
    exact ⟨jsOr_truthy _ _ h, jsOr_truthy _ _ h⟩
  · intro hf hu
    unfold fromChain001 fromChainSrv
    rw [jsOr_falsy _ _ hf, jsOr_falsy _ _ hf, jsOr_truthy _ _ hu]
    exact ⟨rfl, rfl⟩
  · intro h
    exact ⟨jsOr_truthy _ _ h, jsOr_truthy _ _ h⟩
  · intro ht hu
    unfold toChain001 toChainSrv
    rw [jsOr_falsy _ _ ht, jsOr_falsy _ _ ht, jsOr_truthy _ _ hu]
    exact ⟨rfl, rfl⟩
  · exact ⟨truthyEnv_jsOr _ _ (truthyEnv_jsOr _ _ (by decide)),
      truthyEnv_jsOr _ _ (truthyEnv_jsOr _ _ (by decide))⟩
  · intro hu
    exact ⟨truthyEnv_jsOr _ _ hu, truthyEnv_jsOr _ _ hu⟩
  · intro b k y m hv hm
    by_cases h0 : k 0 = true <;> by_cases h1 : k 1 = true <;>
      simp [handle001, hv, hm, jsReplaceNl, h0, h1, notifMail001]

/-- C8 witness: with only `SMTP_USER` configured, both the sender and
recipient chains fall back to the account identity and are non-empty. -/
theorem c8_witness :
    fromChain001 cfgUserOnly = cfgUserOnly.SMTP_USER ∧
    toChain001 cfgUserOnly = cfgUserOnly.SMTP_USER ∧
    truthyEnv (fromChainSrv cfgUserOnly) = true ∧
    truthyEnv (toChainSrv cfgUserOnly) = true := by
  have h := c8_address_fallbacks cfgUserOnly
  exact ⟨(h.2.1 (by decide) (by decide)).1,
    (h.2.2.2.1 (by decide) (by decide)).1,
    (h.2.2.2.2.2.1 (by decide)).1,
    (h.2.2.2.2.2.1 (by decide)).2⟩

/-- C9 (amended): the validator of the auto-reply variants never examines
`message`, so a submission whose other fields are valid is accepted with
any message value; when the message is absent or not a string, rendering
the notification HTML throws (`message.replace` on a non-string) and the
handler returns the generic 500 — and this happens before the
notification send, so the transport receives no `sendMail` call at all
for that request. -/
theorem c9_render_failure_before_send :
    (∀ b m', validateBody001 { b with message := m' } = validateBody001 b) ∧
    (∀ cfg b k y, validateBody001 b = .ok .accepted →
      isStr b.message = false →
      handle001 cfg b k y = (.serverError, []) ∧
      handleSrvB cfg b k y = (.serverError, [])) := by
  constructor
  · intro b m'
    rfl
  · intro cfg b k y hv hm
    have hrep : jsReplaceNl b.message = .error .typeError := by
      cases hb : b.message with
      | undef => rfl
      | null => rfl
      | str s => rw [hb] at hm; simp [isStr] at hm
      | num n => rfl
      | bool bo => rfl
    constructor
    · simp [handle001, hv, hrep]
    · simp [handleSrvB, validateBodySrvB, hv, hrep]

/-- C9 counterexample: on a concrete valid submission with `message`
absent, the validator accepts and the handler returns 500 with an empty
transport trace — the failure occurs with no notification send attempt,
refuting the claim's "after the notification send attempt, not before
it". -/
theorem c9_counterexample :
    validateBody001 noMsgBody = .ok .accepted ∧
    handle001 cfgFull noMsgBody kAllOk 2026 = (.serverError, []) := by
  constructor
  · decide
  · decide

/-- C9 witness: the amended theorem applied at the concrete submission
with `message` absent. -/
theorem c9_witness :
    handle001 cfgUserOnly noMsgBody kAllFail 2027 = (.serverError, []) ∧
    handleSrvB cfgUserOnly noMsgBody kAllFail 2027 = (.serverError, []) :=
  c9_render_failure_before_send.2 cfgUserOnly noMsgBody kAllFail 2027
    (by decide) (by decide)

/-- C10 (amended): on every record whose fields are each absent, null or
a string, no validator throws — each returns the accepted result or a
rejection naming a field. -/
theorem c10_validator_total_on_stringish (b : ReqBody)
    (h1 : stringish b.name = true) (h2 : stringish b.email = true)
    (h3 : stringish b.phone = true) (h4 : stringish b.interest = true)
    (h5 : stringish b.message = true) :
    (∃ r, validateBody001 b = .ok r) ∧ (∃ r, validateBody000 b = .ok r) ∧
    (∃ r, validateBodySrv b = .ok r) := by
  refine ⟨?_, ?_, ?_⟩
  · rw [validateBody001_eq_runChecks]
    refine runChecks_ok _ fun x hx => ?_
    simp only [orderedChecks001, List.mem_cons, List.not_mem_nil,
      or_false] at hx
    rcases hx with rfl | rfl | rfl | rfl
    · exact checkName_ok_of_stringish 2 b.name h1
    · exact checkEmail_ok_of_stringish b.email h2
    · exact checkPhone_ok_of_stringish b.phone h3
    · exact checkNonBlank_ok_of_stringish b.interest h4
  · rw [validateBody000_eq_runChecks]
    refine runChecks_ok _ fun x hx => ?_
    simp only [orderedChecks000, List.mem_cons, List.not_mem_nil,
      or_false] at hx
    rcases hx with rfl | rfl | rfl | rfl | rfl
    · exact checkName_ok_of_stringish 3 b.name h1
    · exact checkEmail_ok_of_stringish b.email h2
    · exact checkPhone_ok_of_stringish b.phone h3
    · exact checkNonBlank_ok_of_stringish b.interest h4
    · exact checkNonBlank_ok_of_stringish b.message h5
  · rw [validateBodySrv_eq_runChecks]
    refine runChecks_ok _ fun x hx => ?_
    simp only [orderedChecksSrv, List.mem_cons, List.not_mem_nil,
      or_false] at hx
    rcases hx with rfl | rfl | rfl | rfl
    · exact checkName_ok_of_stringish 3 b.name h1
    · exact checkEmail_ok_of_stringish b.email h2
    · exact checkPhone_ok_of_stringish b.phone h3
    · exact checkNonBlank_ok_of_stringish b.interest h4

/-- C10 counterexample: a record whose `name` is the truthy number `1`
makes the validator throw a `TypeError` (`name.trim` is not a function),
refuting "never throws on any input record". -/
theorem c10_counterexample :
    validateBody001 numNameBody = .error .typeError := by decide

/-- C10 witness: the amended theorem applied at the concrete example
submission. -/
theorem c10_witness :
    (∃ r, validateBody001 adaBody = .ok r) ∧
    (∃ r, validateBody000 adaBody = .ok r) ∧
    (∃ r, validateBodySrv adaBody = .ok r) :=
  c10_validator_total_on_stringish adaBody (by decide) (by decide)
    (by decide) (by decide) (by decide)
